import Mathlib

/-!
Verification development for the content-graph engine of a modular Telegram
menu bot (`telegram_bot.py`).  Strings are embedded as `List Char`
(Python `str`), dictionaries as association lists in insertion order, and
each Python method of `TelegramBotEditor` that the properties below concern
is translated into an executable Lean function of the same name (leading
underscores dropped).
-/

namespace TelegramBot

/-- Backtick character (code 96), written by code point. -/
def backquoteChar : Char := Char.ofNat 96

/-- Opening brace character (code 123), written by code point. -/
def lbraceChar : Char := Char.ofNat 123

/-- Closing brace character (code 125), written by code point. -/
def rbraceChar : Char := Char.ofNat 125

/-- Membership test `c in text` on Python strings. -/
def hasChar (c : Char) : List Char → Bool
  | [] => false
  | a :: rest => if a = c then true else hasChar c rest

/-- Test whether the two-character sequence backslash-`c`
(Python `f"\\{char}"`) occurs in the string. -/
def hasEsc (c : Char) : List Char → Bool
  | a :: b :: rest => if a = '\\' ∧ b = c then true else hasEsc c (b :: rest)
  | _ => false

/-- Python `text.replace(c, "\\" + c)` for a single character `c`:
every occurrence of `c` is replaced by backslash-`c`. -/
def replaceChar (c : Char) : List Char → List Char
  | [] => []
  | a :: rest =>
      if a = c then '\\' :: c :: replaceChar c rest
      else a :: replaceChar c rest

/-- One iteration of the escaping loop body of `_escape_markdown` /
`_format_markdown_safe`:
`if char in text and f"\\{char}" not in text: text = text.replace(char, f"\\{char}")`. -/
def escapeStep (s : List Char) (c : Char) : List Char :=
  if hasChar c s = true ∧ hasEsc c s = false then replaceChar c s else s

/-- The reserved characters of `_escape_markdown` (MarkdownV2 set), in the
order the source lists them:
underscore, star, brackets, parens, tilde, backtick, gt, hash, plus, minus,
equals, pipe, braces, dot, bang. -/
def escapeChars : List Char :=
  ['_', '*', '[', ']', '(', ')', '~', backquoteChar, '>', '#', '+', '-',
   '=', '|', lbraceChar, rbraceChar, '.', '!']

/-- `_escape_markdown(text)`: returns `text` unchanged when empty, else runs
the conditional-escape loop over `escapeChars`. -/
def escape_markdown (s : List Char) : List Char :=
  if s = [] then s else escapeChars.foldl escapeStep s

/-- The restricted character set escaped by `_format_markdown_safe` in
(plain) Markdown mode: star, underscore, backtick, brackets. -/
def problemChars : List Char := ['*', '_', backquoteChar, '[', ']']

/-- `_format_markdown_safe(text)` with the default parse mode
(`ParseMode.MARKDOWN`): empty text unchanged, else the conditional-escape
loop over `problemChars`. -/
def format_markdown_safe (s : List Char) : List Char :=
  if s = [] then s else problemChars.foldl escapeStep s

/-! ### Idempotence infrastructure for the escaping loop -/

/-- Invariant: every occurrence of `c` is witnessed by an escaped
occurrence, so the conditional-escape step for `c` is a no-op. -/
def EscInv (c : Char) (s : List Char) : Prop :=
  hasChar c s = true → hasEsc c s = true

theorem hasEsc_cons (c a : Char) (l : List Char) (h : hasEsc c l = true) :
    hasEsc c (a :: l) = true := by
  cases l with
  | nil => simp [hasEsc] at h
  | cons b rest =>
      unfold hasEsc
      split
      · rfl
      · exact h

theorem hasEsc_replaceChar_self (c : Char) (s : List Char)
    (h : hasChar c s = true) : hasEsc c (replaceChar c s) = true := by
  induction s with
  | nil => simp [hasChar] at h
  | cons a rest ih =>
      by_cases hac : a = c
      · subst hac
        simp only [replaceChar, if_pos rfl]
        simp [hasEsc]
      · have h' : hasChar c rest = true := by
          simpa [hasChar, hac] using h
        simp only [replaceChar, if_neg hac]
        exact hasEsc_cons c a _ (ih h')

theorem hasChar_replaceChar (c d : Char) (s : List Char)
    (hcd : c ≠ d) (hcb : c ≠ '\\') :
    hasChar c (replaceChar d s) = hasChar c s := by
  induction s with
  | nil => rfl
  | cons a rest ih =>
      by_cases had : a = d
      · subst had
        simp only [replaceChar, if_pos rfl]
        have h1 : ('\\' : Char) ≠ c := fun h => hcb h.symm
        have h2 : a ≠ c := fun h => hcd h.symm
        simp [hasChar, if_neg h1, if_neg h2, ih]
      · simp only [replaceChar, if_neg had]
        simp [hasChar, ih]

theorem hasEsc_replaceChar (c d : Char) (s : List Char)
    (hcd : c ≠ d) (hdb : d ≠ '\\') (h : hasEsc c s = true) :
    hasEsc c (replaceChar d s) = true := by
  induction s with
  | nil => simp [hasEsc] at h
  | cons a rest ih =>
      cases rest with
      | nil => simp [hasEsc] at h
      | cons b rest2 =>
          by_cases hpair : a = '\\' ∧ b = c
          · have ha : a = '\\' := hpair.1
            have hb : b = c := hpair.2
            have had : a ≠ d := by rw [ha]; exact fun hh => hdb hh.symm
            have hbd : b ≠ d := by rw [hb]; exact hcd
            simp only [replaceChar, if_neg had, if_neg hbd]
            simp [hasEsc, ha, hb]
          · have h' : hasEsc c (b :: rest2) = true := by
              simp only [hasEsc] at h
              rw [if_neg hpair] at h
              exact h
            have htail : hasEsc c (replaceChar d (b :: rest2)) = true := ih h'
            by_cases had : a = d
            · subst had
              simp only [replaceChar, if_pos rfl]
              exact hasEsc_cons c _ _ (hasEsc_cons c _ _ htail)
            · simp only [replaceChar, if_neg had]
              exact hasEsc_cons c _ _ htail

theorem escInv_step_self (c : Char) (s : List Char) :
    EscInv c (escapeStep s c) := by
  unfold escapeStep
  split
  · next hcond =>
      intro _
      exact hasEsc_replaceChar_self c s hcond.1
  · next hcond =>
      intro hchar
      by_cases hesc : hasEsc c s = true
      · exact hesc
      · exact absurd ⟨hchar, Bool.eq_false_iff.mpr hesc⟩ hcond

theorem escInv_step_other (c d : Char) (s : List Char)
    (hcd : c ≠ d) (hdb : d ≠ '\\') (hcb : c ≠ '\\')
    (h : EscInv c s) : EscInv c (escapeStep s d) := by
  unfold escapeStep
  split
  · intro hchar
    rw [hasChar_replaceChar c d s hcd hcb] at hchar
    exact hasEsc_replaceChar c d s hcd hdb (h hchar)
  · exact h

theorem escInv_foldl_preserve (c : Char) (l : List Char) (s : List Char)
    (hnotin : c ∉ l) (hnb : ∀ d ∈ l, d ≠ '\\') (hcb : c ≠ '\\')
    (h : EscInv c s) : EscInv c (l.foldl escapeStep s) := by
  induction l generalizing s with
  | nil => exact h
  | cons d rest ih =>
      have hcd : c ≠ d := fun he => hnotin (he ▸ List.mem_cons_self d rest)
      have hdb : d ≠ '\\' := hnb d (List.mem_cons_self d rest)
      have hrest : c ∉ rest := fun hm => hnotin (List.mem_cons_of_mem d hm)
      have hnb' : ∀ e ∈ rest, e ≠ '\\' := fun e he =>
        hnb e (List.mem_cons_of_mem d he)
      exact ih _ hrest hnb' (escInv_step_other c d s hcd hdb hcb h)

theorem escInv_foldl_establish (c : Char) (l : List Char) (s : List Char)
    (hmem : c ∈ l) (hnb : ∀ d ∈ l, d ≠ '\\') (hnd : l.Nodup) :
    EscInv c (l.foldl escapeStep s) := by
  induction l generalizing s with
  | nil => exact absurd hmem (List.not_mem_nil c)
  | cons d rest ih =>
      have hcb : c ≠ '\\' := hnb c hmem
      have hnb' : ∀ e ∈ rest, e ≠ '\\' := fun e he =>
        hnb e (List.mem_cons_of_mem d he)
      by_cases hcd : c = d
      · subst hcd
        have hnotin : c ∉ rest := (List.nodup_cons.mp hnd).1
        exact escInv_foldl_preserve c rest _ hnotin hnb' hcb
          (escInv_step_self c s)
      · have hmem' : c ∈ rest := by
          cases List.mem_cons.mp hmem with
          | inl h => exact absurd h hcd
          | inr h => exact h
        exact ih _ hmem' hnb' (List.nodup_cons.mp hnd).2

theorem escapeStep_noop (s : List Char) (c : Char) (h : EscInv c s) :
    escapeStep s c = s := by
  unfold escapeStep
  split
  · next hcond => rw [h hcond.1] at hcond; simp at hcond
  · rfl

theorem foldl_escapeStep_noop (l : List Char) (s : List Char)
    (h : ∀ c ∈ l, EscInv c s) : l.foldl escapeStep s = s := by
  induction l with
  | nil => rfl
  | cons d rest ih =>
      have hstep : escapeStep s d = s :=
        escapeStep_noop s d (h d (List.mem_cons_self d rest))
      simp only [List.foldl_cons, hstep]
      exact ih fun c hc => h c (List.mem_cons_of_mem d hc)

theorem escapeChars_nodup : escapeChars.Nodup := by decide

theorem escapeChars_no_backslash : ∀ d ∈ escapeChars, d ≠ '\\' := by decide

/-- C6: the markup-escaping routine `_escape_markdown` is idempotent:
`escape(escape(x)) = escape(x)` for every input string `x`, because each
reserved character is escaped only when its escaped form is not already
present. -/
theorem escape_markdown_idempotent (x : List Char) :
    escape_markdown (escape_markdown x) = escape_markdown x := by
  by_cases hx : x = []
  · subst hx
    rfl
  · have hstep : escape_markdown x = escapeChars.foldl escapeStep x := by
      unfold escape_markdown
      rw [if_neg hx]
    rw [hstep]
    by_cases hy : escapeChars.foldl escapeStep x = []
    · unfold escape_markdown
      rw [if_pos hy]
    · unfold escape_markdown
      rw [if_neg hy]
      exact foldl_escapeStep_noop escapeChars _ fun c hc =>
        escInv_foldl_establish c escapeChars x hc
          escapeChars_no_backslash escapeChars_nodup

/-! ### Generic Python-style helpers -/

/-- Python whitespace characters stripped by `str.strip()` (ASCII part):
space, tab, newline, carriage return, vertical tab, form feed. -/
def isPyWs (c : Char) : Bool :=
  if c = ' ' ∨ c = '\t' ∨ c = '\n' ∨ c = '\r' ∨ c = Char.ofNat 11 ∨
     c = Char.ofNat 12 then true else false

/-- Python `s.strip()`. -/
def pyStrip (s : List Char) : List Char :=
  ((s.dropWhile isPyWs).reverse.dropWhile isPyWs).reverse

/-- `_sanitize_input(text)`: remove control characters (keep code points
at least 32 plus newline and tab), then cap the length at 4096. -/
def sanitize_input (s : List Char) : List Char :=
  (s.filter fun c => if 32 ≤ c.toNat ∨ c = '\n' ∨ c = '\t' then true
                     else false).take 4096

/-- Split a string at its first pipe character; `none` when no pipe
occurs.  Building block for Python `text.split("|", maxsplit)`. -/
def splitFirstPipe : List Char → Option (List Char × List Char)
  | [] => none
  | a :: rest =>
      if a = '|' then some ([], rest)
      else (splitFirstPipe rest).map fun p => (a :: p.1, p.2)

/-- Python `text.split("|", 2)` restricted to the only case the callers
accept (`len(parts) == 3`): `some (a, b, c)` when the text contains at
least two pipes, splitting at the first two. -/
def split2Pipe (s : List Char) : Option (List Char × List Char × List Char) :=
  match splitFirstPipe s with
  | none => none
  | some (a, r) =>
      match splitFirstPipe r with
      | none => none
      | some (b, r2) => some (a, b, r2)

/-- Fuel-driven worker for `pyReplace`; the fuel is the length of the
string being scanned, which suffices because every step consumes at least
one character. -/
def pyReplaceFuel (old new : List Char) : Nat → List Char → List Char
  | _, [] => []
  | 0, s => s
  | fuel + 1, a :: rest =>
      if old.isPrefixOf (a :: rest) then
        new ++ pyReplaceFuel old new fuel (List.drop (old.length - 1) rest)
      else a :: pyReplaceFuel old new fuel rest

/-- Python `s.replace(old, new)` for a non-empty pattern `old`:
left-to-right replacement of non-overlapping occurrences.  (The callers in
the source only ever pass non-empty literal patterns; for `old = []` we
return `s` unchanged.) -/
def pyReplace (old new s : List Char) : List Char :=
  if old = [] then s else pyReplaceFuel old new s.length s

/-- Decimal digit character for a value below 10. -/
def digitChar (n : Nat) : Char := Char.ofNat (48 + n)

/-- Fuel-driven decimal rendering worker. -/
def natStrAux : Nat → Nat → List Char → List Char
  | 0, _, acc => acc
  | fuel + 1, n, acc =>
      if n < 10 then digitChar n :: acc
      else natStrAux fuel (n / 10) (digitChar (n % 10) :: acc)

/-- Python `str(n)` for a natural number. -/
def natStr (n : Nat) : List Char := natStrAux (n + 1) n []

/-- Python `str(i)` for an integer. -/
def intStr (i : Int) : List Char :=
  if i < 0 then '-' :: natStr i.natAbs else natStr i.toNat

/-- Numeric value of a decimal digit character, if it is one. -/
def digitVal? (c : Char) : Option Nat :=
  if 48 ≤ c.toNat ∧ c.toNat ≤ 57 then some (c.toNat - 48) else none

/-- Accumulating all-digit parser: `none` as soon as a non-digit occurs. -/
def digitsValAux : List Char → Nat → Option Nat
  | [], acc => some acc
  | c :: rest, acc =>
      match digitVal? c with
      | some d => digitsValAux rest (acc * 10 + d)
      | none => none

/-- Parse a non-empty all-digit string. -/
def digitsVal? : List Char → Option Nat
  | [] => none
  | s => digitsValAux s 0

/-- Python `int(s)` (returning `none` where Python raises `ValueError`):
optional surrounding whitespace, optional sign, then decimal digits.
(Digit-group underscores accepted by Python are not modelled; no id in
the stored data uses them.) -/
def pyInt? (s : List Char) : Option Int :=
  match pyStrip s with
  | '-' :: rest => (digitsVal? rest).map fun n => -(n : Int)
  | '+' :: rest => (digitsVal? rest).map fun n => (n : Int)
  | t => (digitsVal? t).map fun n => (n : Int)

/-- Association-list lookup, the embedding of Python `dict[k]` /
`k in dict` over insertion-ordered dictionaries. -/
def alookup {α β : Type} [DecidableEq α] : List (α × β) → α → Option β
  | [], _ => none
  | (k, v) :: rest, key => if k = key then some v else alookup rest key

/-- Python `dict[k] = v`: overwrite in place when the key exists
(keeping its position), else append. -/
def dictSet {α β : Type} [DecidableEq α] (l : List (α × β)) (k : α) (v : β) :
    List (α × β) :=
  if (alookup l k).isSome then
    l.map fun kv => if kv.1 = k then (k, v) else kv
  else l ++ [(k, v)]

/-! ### Data model -/

/-- A button dictionary as created by `create_button_from_text`:
`id`, `text`, `action`, `created_at`, optional `updated_at`. -/
structure Button where
  id : List Char
  text : List Char
  action : List Char
  created_at : List Char
  updated_at : Option (List Char)
deriving DecidableEq

/-- A page dictionary as created by `create_page_from_text` /
`_create_default_page`. -/
structure Page where
  title : List Char
  content : List Char
  buttons : List Button
  created_at : List Char
  updated_at : Option (List Char)
deriving DecidableEq

/-- Replace the button list of a page, keeping the other fields
(the in-place mutation of `page["buttons"]`). -/
def setButtons (p : Page) (bs : List Button) : Page :=
  ⟨p.title, p.content, bs, p.created_at, p.updated_at⟩

/-- The graph portion of `self.database` that the claims concern:
the `pages` dict and `settings.get("main_menu")`. -/
structure Database where
  pages : List (List Char × Page)
  mainMenu : Option (List Char)
deriving DecidableEq

/-- An action dictionary: `content` is always present (indexed directly),
`type`, `url` and `text` are read with `.get`. -/
structure ActionData where
  content : List Char
  type : Option (List Char)
  url : Option (List Char)
  text : Option (List Char)
deriving DecidableEq

/-- A per-user editor session as stored in `self.user_states[user_id]`:
`state`, a timestamp, and the `data` context dictionary. -/
structure Session where
  state : List Char
  timestamp : Nat
  data : List (List Char × List Char)
deriving DecidableEq

/-- A user record as created by `register_user`. -/
structure UserRecord where
  username : Option (List Char)
  first_name : Option (List Char)
  last_name : Option (List Char)
  role : List Char
  registered_at : List Char
  last_seen : List Char
  total_interactions : Nat
  pages_visited : List (List Char)
  buttons_clicked : List (List Char)
deriving DecidableEq

/-! ### Button id counter (`_initialize_button_counter`,
`_generate_button_id`) -/

/-- `_initialize_button_counter`: scan every button of every page, try
`int(button["id"])` (skipping buttons whose id does not parse as an
integer), track the maximum starting from 0, and return that maximum
plus one as the new counter value. -/
def initialize_button_counter (pages : List (List Char × Page)) : Int :=
  (pages.foldl
    (fun m kp =>
      kp.2.buttons.foldl
        (fun m b =>
          match pyInt? b.id with
          | some n => max m n
          | none => m)
        m)
    0) + 1

/-- `_generate_button_id`: return `"btn_" + str(counter)` and the
incremented counter. -/
def generate_button_id (counter : Int) : List Char × Int :=
  ("btn_".toList ++ intStr counter, counter + 1)

/-! ### Session state machine (`_get_user_state`, `_is_state_valid`,
`handle_editor_message` gate) -/

/-- `_get_user_state`: the stored state, or `"waiting"` when the user has
no session. -/
def get_user_state (states : List (Nat × Session)) (uid : Nat) : List Char :=
  match alookup states uid with
  | some s => s.state
  | none => "waiting".toList

/-- `_is_state_valid(user_id, expected_state)`: false when no session
exists, else whether the stored state equals the expected one. -/
def is_state_valid (states : List (Nat × Session)) (uid : Nat)
    (expected : List Char) : Bool :=
  match alookup states uid with
  | none => false
  | some s => if s.state = expected then true else false

/-- The validity gate of `handle_editor_message` (lines 839-846): read the
current state with `_get_user_state` and pass that same value back to
`_is_state_valid`; `true` means the free text is dispatched to the
state's handler, `false` means the error reply is sent and the session is
cleared. -/
def editor_message_gate (states : List (Nat × Session)) (uid : Nat) : Bool :=
  is_state_valid states uid (get_user_state states uid)

/-- Modelled from the spec: "`contextData` holds the target entity id
(e.g., the page being edited)".  A stored context matches a declared state
when it records the id of the entity that state is editing: the page id
for `editing_page`/`creating_button`, the button id for `editing_button`,
the action id for `editing_action`; the remaining states carry no target
entity. -/
def spec_context_matches (state : List Char)
    (data : List (List Char × List Char)) : Bool :=
  if state = "editing_page".toList ∨ state = "creating_button".toList then
    (alookup data ("page_id".toList)).isSome
  else if state = "editing_button".toList then
    (alookup data ("button_id".toList)).isSome
  else if state = "editing_action".toList then
    (alookup data ("action_id".toList)).isSome
  else true

/-! ### Input validation (`_validate_page_id`, `_validate_content`) -/

/-- `_validate_page_id`: non-empty, and after removing underscores and
hyphens the remainder is a non-empty alphanumeric string (`str.isalnum`,
modelled over its ASCII range). -/
def validate_page_id (s : List Char) : Bool :=
  if s = [] then false
  else
    let t := s.filter fun c => if c = '_' ∨ c = '-' then false else true
    if t = [] then false else t.all Char.isAlphanum

/-- `_validate_content(content, max_length)` reduced to its boolean
verdict: non-empty, non-blank after stripping, and within the length
bound. -/
def validate_content (s : List Char) (maxLen : Nat) : Bool :=
  if s = [] then false
  else if pyStrip s = [] then false
  else if maxLen < s.length then false
  else true

/-! ### Page creation (`create_page_from_text`) -/

/-- The typed outcomes of `create_page_from_text`, in the order the
source checks them. -/
inductive PageError where
  | formatError
  | invalidId
  | invalidTitle
  | invalidContent
  | duplicateId
deriving DecidableEq

/-- `create_page_from_text` (graph effect): sanitize the free text, split
it as `ID|Titolo|Contenuto` (`split("|", 2)`, requiring exactly three
parts), validate the stripped id, title (max 100) and content (max 4096),
refuse an id already present in `pages`, and otherwise append the new
page (empty button list, creation timestamp `now`).  Error returns leave
the graph untouched, as every early return in the source precedes the
mutation. -/
def create_page_from_text (pages : List (List Char × Page))
    (textMsg : List Char) (now : List Char) :
    Except PageError (List (List Char × Page)) :=
  match split2Pipe (sanitize_input textMsg) with
  | none => .error .formatError
  | some (pidRaw, title, content) =>
      if validate_page_id (pyStrip pidRaw) = false then .error .invalidId
      else if validate_content (pyStrip title) 100 = false then
        .error .invalidTitle
      else if validate_content (pyStrip content) 4096 = false then
        .error .invalidContent
      else if (alookup pages (pyStrip pidRaw)).isSome then
        .error .duplicateId
      else .ok (pages ++
        [(pyStrip pidRaw, ⟨pyStrip title, pyStrip content, [], now, none⟩)])

/-! ### Button deletion (`_find_button_by_id`, `delete_button`) -/

/-- Inner scan of `_find_button_by_id`: first button of the list whose
`id` equals the given one. -/
def find_button_in_page (bid : List Char) : List Button → Option Button
  | [] => none
  | b :: rest =>
      if b.id = bid then some b else find_button_in_page bid rest

/-- `_find_button_by_id`: scan the pages in insertion order and return
the owning page id together with the button. -/
def find_button_by_id (pages : List (List Char × Page)) (bid : List Char) :
    Option (List Char × Button) :=
  match pages with
  | [] => none
  | (pid, p) :: rest =>
      match find_button_in_page bid p.buttons with
      | some b => some (pid, b)
      | none => find_button_by_id rest bid

/-- Python `list.remove(x)`: drop the first element equal to `x`. -/
def pyRemove (x : Button) : List Button → List Button
  | [] => []
  | b :: rest => if b = x then rest else b :: pyRemove x rest

/-- `delete_button` (graph effect): locate the button by id; if absent,
report failure; otherwise remove it (`buttons.remove(button)`) from the
owning page's button list. -/
def delete_button (pages : List (List Char × Page)) (bid : List Char) :
    Option (List (List Char × Page)) :=
  match find_button_by_id pages bid with
  | none => none
  | some (pid, btn) =>
      some (pages.map fun kp =>
        if kp.1 = pid then (kp.1, setButtons kp.2 (pyRemove btn kp.2.buttons))
        else kp)

/-! ### Page resolution (`_get_valid_page`, `_create_default_page`) -/

/-- The default page synthesized by `_create_default_page`. -/
def default_page (now : List Char) : Page :=
  ⟨"Menu Principale".toList,
   "Benvenuto! Usa /editor per configurare il bot.".toList, [], now, none⟩

/-- `_create_default_page`: build the default page, store it under the
key `"main"`, persist the database (the boolean records that
`save_database` ran), and return the page. -/
def create_default_page (db : Database) (now : List Char) :
    Page × Database × Bool :=
  let p := default_page now
  (p, ⟨dictSet db.pages ("main".toList) p, db.mainMenu⟩, true)

/-- `_get_valid_page(page_id)`: the named page when present; else the
configured main-menu page (`settings.get("main_menu", "main")`) when
present; else the synthesized default page.  The returned database and
boolean record the graph mutation and persistence of the last case. -/
def get_valid_page (db : Database) (pid : List Char) (now : List Char) :
    Page × Database × Bool :=
  match alookup db.pages pid with
  | some p => (p, db, false)
  | none =>
      match alookup db.pages (db.mainMenu.getD ("main".toList)) with
      | some p => (p, db, false)
      | none => create_default_page db now

/-! ### Rendering (`_format_markdown_safe`, `_create_safe_markdown_text`,
`_create_page_keyboard`) -/

/-- `_create_safe_markdown_text(title, content)`:
`f"**{safe_title}**\n\n{safe_content}"` with both parts escaped
independently by `_format_markdown_safe`. -/
def create_safe_markdown_text (title content : List Char) : List Char :=
  "**".toList ++ format_markdown_safe title ++ "**".toList ++
    ['\n', '\n'] ++ format_markdown_safe content

/-- One inline-keyboard button: display text and callback data. -/
def kbButton (textLabel action : List Char) : List Char × List Char :=
  (textLabel, action)

/-- The synthesized back row (`"🔙 Indietro"` → `back_to_main`). -/
def backRow : List (List Char × List Char) :=
  [kbButton ("🔙 Indietro".toList) ("back_to_main".toList)]

/-- `_create_page_keyboard(page, page_id)`: one row per button of the
page, in stored order, then the back row when `page_id` differs from the
configured main menu. -/
def create_page_keyboard (mainMenuSetting : Option (List Char)) (p : Page)
    (pid : List Char) : List (List (List Char × List Char)) :=
  let keyboard := p.buttons.foldl
    (fun kb b => kb ++ [[kbButton b.text b.action]]) []
  if pid ≠ mainMenuSetting.getD ("main".toList) then keyboard ++ [backRow]
  else keyboard

/-! ### Action execution (`_process_message_content`,
`_execute_standard_action`) -/

/-- `_process_message_content(content, context)`: substitute
`{user_id}` with `context.user_data.get("user_id", "Unknown")`,
substitute `{timestamp}` with the current time rendered as
`%Y-%m-%d %H:%M:%S` (passed in as `now`), then escape. -/
def process_message_content (content : List Char)
    (userData : List (List Char × List Char)) (now : List Char) : List Char :=
  let uidVal := (alookup userData ("user_id".toList)).getD ("Unknown".toList)
  let c1 := pyReplace ("{user_id}".toList) uidVal content
  let c2 := pyReplace ("{timestamp}".toList) now c1
  escape_markdown c2

/-- Observable outcome of `_execute_standard_action`. -/
inductive ActionOutcome where
  | showMessage : List Char → ActionOutcome
  | showPage : List Char → ActionOutcome
  | showUrl : List Char → List Char → ActionOutcome
  | runAnalytics : ActionOutcome
  | runUsers : ActionOutcome
  | noOutput : ActionOutcome
  | unboundLocalError : ActionOutcome
deriving DecidableEq

/-- `_execute_standard_action`: dispatch on
`action_data.get("type", "message")`.  In the `command` branch only
`show_analytics` and `show_users` are handled; the `if/elif` there has no
`else`, so any other command name produces no output at all
(`ActionOutcome.noOutput`).  The trailing `else` of the method is
indented at the outer `if action_type == ...` chain and references the
local variable `command` that is only assigned inside the `command`
branch, so an unknown action type raises `UnboundLocalError`
(`ActionOutcome.unboundLocalError`). -/
def execute_standard_action (a : ActionData)
    (userData : List (List Char × List Char)) (now : List Char) :
    ActionOutcome :=
  let t := a.type.getD ("message".toList)
  if t = "message".toList then
    .showMessage (process_message_content a.content userData now)
  else if t = "page".toList then .showPage a.content
  else if t = "url".toList then
    .showUrl (a.text.getD ("Apri Link".toList)) (a.url.getD a.content)
  else if t = "command".toList then
    if a.content = "show_analytics".toList then .runAnalytics
    else if a.content = "show_users".toList then .runUsers
    else .noOutput
  else .unboundLocalError

/-! ### User registration (`register_user`) -/

/-- `register_user`: create a fresh record only when `str(user_id)` is
not yet a key of the users dict; otherwise do nothing. -/
def register_user (users : List (List Char × UserRecord)) (uid : Nat)
    (username first_name last_name : Option (List Char)) (role : List Char)
    (now : List Char) : List (List Char × UserRecord) :=
  if (alookup users (natStr uid)).isSome then users
  else users ++ [(natStr uid,
    ⟨username, first_name, last_name, role, now, now, 0, [], []⟩)]

/-! ### Claim theorems -/

/-- All button ids stored in the graph, in page order. -/
def allButtonIds (pages : List (List Char × Page)) : List (List Char) :=
  pages.foldl (fun acc kp => acc ++ kp.2.buttons.map Button.id) []

/-- A persisted graph whose buttons have ids `btn_1`, `btn_2`
(maximum numeric suffix K = 2), as left behind by two `addButton` calls
on fresh state. -/
def c1pages : List (List Char × Page) :=
  [("main".toList,
    ⟨"T".toList, "C".toList,
     [⟨"btn_1".toList, "A".toList, "page_x".toList, "t1".toList, none⟩,
      ⟨"btn_2".toList, "B".toList, "page_y".toList, "t2".toList, none⟩],
     "t0".toList, none⟩)]

/-- C1: evaluation at the failing input.  Restarting over a persisted
graph whose buttons are `btn_1`, `btn_2` (max numeric suffix K = 2) seeds
the counter to 1, not K + 1 = 3: `int("btn_K")` always raises
`ValueError` inside `_initialize_button_counter`, so every persisted id
is skipped and the maximum stays 0.  The next assigned id is therefore
`btn_1`, which collides with an existing button id, contradicting the
claimed no-collision guarantee. -/
theorem c1_button_counter_restart_collision :
    initialize_button_counter c1pages = 1 ∧
    initialize_button_counter c1pages ≠ 3 ∧
    (generate_button_id (initialize_button_counter c1pages)).1 =
      "btn_1".toList ∧
    "btn_1".toList ∈ allButtonIds c1pages := by decide

/-- C2: evaluation at the failing input.  The program never writes the
key `user_id` into `context.user_data` (it only stores
`editing_page_<uid>`-style keys), so `_process_message_content` always
substitutes the default `"Unknown"`.  Executing the `message` action with
content `"Ciao {user_id}"` for user 42 (whose `user_data` dict holds no
`user_id` entry) renders `"Ciao Unknown"`, not the claimed `"Ciao 42"`. -/
theorem c2_user_id_substitutes_unknown :
    execute_standard_action
      ⟨"Ciao {user_id}".toList, some ("message".toList), none, none⟩
      [] ("2026-10-12 00:00:00".toList) =
      .showMessage ("Ciao Unknown".toList) ∧
    "Ciao Unknown".toList ≠ "Ciao 42".toList := by decide

/-- A session whose declared state is `editing_page` but whose stored
context records no page id at all. -/
def c3states : List (Nat × Session) := [(1, ⟨"editing_page".toList, 0, []⟩)]

/-- C3 counterexample: a session in state `editing_page` with an empty
contextData (its declared state does not match its stored context, which
names no page), yet the validity gate of `handle_editor_message` accepts
it, so the free text is dispatched to the editing handler instead of the
session being discarded. -/
theorem c3_context_not_validated :
    spec_context_matches ("editing_page".toList) [] = false ∧
    editor_message_gate c3states 1 = true := by decide

/-- C3 (amended): the validity check of `handle_editor_message` passes
`_get_user_state`'s result straight back into `_is_state_valid`, so it
compares the session's stored state with itself: every existing session
is accepted regardless of its contextData, and only users with no session
at all are rejected.  contextData is never validated against the state. -/
theorem c3_gate_ignores_context (states : List (Nat × Session)) (uid : Nat) :
    (∀ s : Session, alookup states uid = some s →
      editor_message_gate states uid = true) ∧
    (alookup states uid = none → editor_message_gate states uid = false) := by
  constructor
  · intro s h
    unfold editor_message_gate is_state_valid get_user_state
    rw [h]
    simp
  · intro h
    unfold editor_message_gate is_state_valid get_user_state
    rw [h]

/-- C3 witness: the amended theorem applied at concrete inputs, both for
an existing session (gate accepts) and for a missing one (gate rejects). -/
theorem c3_gate_ignores_context_witness :
    editor_message_gate c3states 1 = true ∧
    editor_message_gate c3states 2 = false :=
  ⟨(c3_gate_ignores_context c3states 1).1 ⟨"editing_page".toList, 0, []⟩
      (by decide),
   (c3_gate_ignores_context c3states 2).2 (by decide)⟩

/-- C4: evaluation at the failing input.  For an action of type `command`
whose content is not `show_analytics` or `show_users`, the inner
`if/elif` of `_execute_standard_action` has no `else`: nothing is sent at
all.  The `f"Comando: {command}"` fallback sits on a mis-indented `else`
belonging to the outer type dispatch, where `command` is unbound, so it
can never render the raw command name. -/
theorem c4_unknown_command_silent :
    execute_standard_action
      ⟨"foo".toList, some ("command".toList), none, none⟩ [] [] =
      .noOutput ∧
    (∀ s : List Char, ActionOutcome.noOutput ≠ .showMessage s) :=
  ⟨by decide, fun _ h => ActionOutcome.noConfusion h⟩

/-- The empty graph with no configured main menu. -/
def emptyDb : Database := ⟨[], none⟩

/-- C5 counterexample: resolving any page id over an empty graph
synthesizes a page titled `"Menu Principale"`, not `"Main Menu"` as the
claim states. -/
theorem c5_default_title_not_main_menu :
    (get_valid_page emptyDb ("x".toList) ("t0".toList)).1.title =
      "Menu Principale".toList ∧
    (get_valid_page emptyDb ("x".toList) ("t0".toList)).1.title ≠
      "Main Menu".toList := by decide

/-- C5 (amended): `_get_valid_page(pageId)` returns the named page when
it exists; otherwise the configured main-menu page
(`settings.get("main_menu", "main")`) when that exists; otherwise it
synthesizes a default page titled `"Menu Principale"` with an empty
button list, stores it in the graph under the key `"main"`, persists the
database, and returns that page. -/
theorem c5_resolve_page (db : Database) (pid now : List Char) :
    (∀ p : Page, alookup db.pages pid = some p →
      get_valid_page db pid now = (p, db, false)) ∧
    (alookup db.pages pid = none →
      ∀ q : Page,
        alookup db.pages (db.mainMenu.getD ("main".toList)) = some q →
        get_valid_page db pid now = (q, db, false)) ∧
    (alookup db.pages pid = none →
      alookup db.pages (db.mainMenu.getD ("main".toList)) = none →
      get_valid_page db pid now =
        (default_page now,
         ⟨dictSet db.pages ("main".toList) (default_page now), db.mainMenu⟩,
         true) ∧
      (default_page now).title = "Menu Principale".toList ∧
      (default_page now).buttons = []) := by
  refine ⟨?_, ?_, ?_⟩
  · intro p h
    unfold get_valid_page
    rw [h]
  · intro h1 q h2
    unfold get_valid_page
    rw [h1, h2]
  · intro h1 h2
    refine ⟨?_, rfl, rfl⟩
    unfold get_valid_page
    rw [h1, h2]
    rfl

/-- C5 witness: the amended theorem applied at concrete inputs covering
all three branches. -/
theorem c5_resolve_page_witness :
    get_valid_page ⟨[("main".toList, default_page ("t0".toList))], none⟩
      ("main".toList) ("t1".toList) =
      (default_page ("t0".toList),
       ⟨[("main".toList, default_page ("t0".toList))], none⟩, false) ∧
    get_valid_page ⟨[("main".toList, default_page ("t0".toList))], none⟩
      ("missing".toList) ("t1".toList) =
      (default_page ("t0".toList),
       ⟨[("main".toList, default_page ("t0".toList))], none⟩, false) ∧
    get_valid_page emptyDb ("missing".toList) ("t1".toList) =
      (default_page ("t1".toList),
       ⟨[("main".toList, default_page ("t1".toList))], none⟩, true) :=
  ⟨(c5_resolve_page ⟨[("main".toList, default_page ("t0".toList))], none⟩
      ("main".toList) ("t1".toList)).1 (default_page ("t0".toList))
      (by decide),
   (c5_resolve_page ⟨[("main".toList, default_page ("t0".toList))], none⟩
      ("missing".toList) ("t1".toList)).2.1 (by decide)
      (default_page ("t0".toList)) (by decide),
   by
    have h := ((c5_resolve_page emptyDb ("missing".toList)
      ("t1".toList)).2.2 (by decide) (by decide)).1
    simpa [emptyDb, dictSet, alookup] using h⟩

/-! ### C7: page creation succeeds exactly once -/

theorem splitFirstPipe_append (a r : List Char) (h : '|' ∉ a) :
    splitFirstPipe (a ++ '|' :: r) = some (a, r) := by
  induction a with
  | nil => simp [splitFirstPipe]
  | cons x xs ih =>
      have hx : x ≠ '|' := fun he => h (he ▸ List.mem_cons_self x xs)
      have hxs : '|' ∉ xs := fun hm => h (List.mem_cons_of_mem x hm)
      simp [splitFirstPipe, hx, ih hxs]

theorem split2Pipe_append (a b c : List Char) (ha : '|' ∉ a)
    (hb : '|' ∉ b) :
    split2Pipe (a ++ '|' :: (b ++ '|' :: c)) = some (a, b, c) := by
  simp [split2Pipe, splitFirstPipe_append a _ ha,
    splitFirstPipe_append b c hb]

theorem alookup_append_right {α β : Type} [DecidableEq α]
    (l : List (α × β)) (k : α) (v : β) (h : alookup l k = none) :
    alookup (l ++ [(k, v)]) k = some v := by
  induction l with
  | nil => simp [alookup]
  | cons kv rest ih =>
      obtain ⟨k1, v1⟩ := kv
      by_cases hk : k1 = k
      · rw [alookup, if_pos hk] at h
        exact absurd h (by simp)
      · rw [alookup, if_neg hk] at h
        rw [List.cons_append, alookup, if_neg hk]
        exact ih h

/-- C7: for every page id accepted by the id validator (with valid title
and content and an unambiguous `ID|Titolo|Contenuto` text), driving
`create_page_from_text` succeeds exactly once: the first call appends a
page with the given (stripped) title and content and an empty button
list, and a second call with the same text fails with `DuplicateId`,
leaving the graph unchanged (the error return precedes any mutation). -/
theorem c7_create_page_succeeds_once
    (pages : List (List Char × Page)) (pid title content now : List Char)
    (hpid : validate_page_id (pyStrip pid) = true)
    (htitle : validate_content (pyStrip title) 100 = true)
    (hcontent : validate_content (pyStrip content) 4096 = true)
    (hp1 : '|' ∉ pid) (hp2 : '|' ∉ title)
    (hsan : sanitize_input (pid ++ '|' :: (title ++ '|' :: content)) =
            pid ++ '|' :: (title ++ '|' :: content))
    (hfresh : alookup pages (pyStrip pid) = none) :
    create_page_from_text pages (pid ++ '|' :: (title ++ '|' :: content))
        now =
      .ok (pages ++
        [(pyStrip pid, ⟨pyStrip title, pyStrip content, [], now, none⟩)]) ∧
    create_page_from_text
        (pages ++
         [(pyStrip pid, ⟨pyStrip title, pyStrip content, [], now, none⟩)])
        (pid ++ '|' :: (title ++ '|' :: content)) now =
      .error .duplicateId := by
  have hsplit := split2Pipe_append pid title content hp1 hp2
  have hdup :
      alookup
        (pages ++
         [(pyStrip pid, ⟨pyStrip title, pyStrip content, [], now, none⟩)])
        (pyStrip pid) =
      some ⟨pyStrip title, pyStrip content, [], now, none⟩ :=
    alookup_append_right pages (pyStrip pid) _ hfresh
  constructor
  · unfold create_page_from_text
    rw [hsan, hsplit]
    simp [hpid, htitle, hcontent, hfresh]
  · unfold create_page_from_text
    rw [hsan, hsplit]
    simp [hpid, htitle, hcontent, hdup]

/-- The fresh graph of the C7 scenario: only a default main page. -/
def c7pages : List (List Char × Page) :=
  [("main".toList, default_page ("t0".toList))]

/-- The graph after the first successful creation of page `about`. -/
def c7pagesAfter : List (List Char × Page) :=
  c7pages ++
    [("about".toList,
      ⟨"Chi Siamo".toList, "Testo".toList, [], "t1".toList, none⟩)]

/-- C7 witness: the scenario of the claim.  On a fresh graph with only a
default main page, the free text `about|Chi Siamo|Testo` creates page
`about` with title `Chi Siamo`, content `Testo` and an empty button
list; sending the same text again fails with `DuplicateId`. -/
theorem c7_create_page_witness :
    create_page_from_text c7pages ("about|Chi Siamo|Testo".toList)
      ("t1".toList) = .ok c7pagesAfter ∧
    create_page_from_text c7pagesAfter ("about|Chi Siamo|Testo".toList)
      ("t1".toList) = .error .duplicateId := by
  have h := c7_create_page_succeeds_once c7pages ("about".toList)
    ("Chi Siamo".toList) ("Testo".toList) ("t1".toList)
    (by decide) (by decide) (by decide) (by decide) (by decide)
    (by decide) (by decide)
  have e1 : "about".toList ++ '|' ::
      ("Chi Siamo".toList ++ '|' :: "Testo".toList) =
      "about|Chi Siamo|Testo".toList := by decide
  have e2 : pyStrip ("about".toList) = "about".toList := by decide
  have e3 : pyStrip ("Chi Siamo".toList) = "Chi Siamo".toList := by decide
  have e4 : pyStrip ("Testo".toList) = "Testo".toList := by decide
  rw [e1, e2, e3, e4] at h
  exact h

/-! ### C8: page rendering -/

theorem keyboard_foldl_rows (bs : List Button)
    (acc : List (List (List Char × List Char))) :
    bs.foldl (fun kb b => kb ++ [[kbButton b.text b.action]]) acc =
      acc ++ bs.map fun b => [kbButton b.text b.action] := by
  induction bs generalizing acc with
  | nil => simp
  | cons b rest ih =>
      simp only [List.foldl_cons, List.map_cons]
      rw [ih]
      simp

/-- The page of the C8 round-trip scenario: title `T`, content `C`, one
button labelled `A` with action `back_to_main`. -/
def c8page : Page :=
  ⟨"T".toList, "C".toList,
   [⟨"btn_1".toList, "A".toList, "back_to_main".toList, "t1".toList, none⟩],
   "t0".toList, none⟩

/-- C8: rendering a page produces `**title**\n\ncontent` with title and
content independently escaped, and the keyboard is one row per button in
the page's stored order with the synthesized back row appended exactly
when the rendered page id differs from the configured main menu.  In
particular the scenario page renders to `**T**\n\nC` (escaped `T` and
`C`) with a row labelled `A` followed by the back row. -/
theorem c8_page_render_layout :
    (∀ (p : Page) (pid : List Char) (settings : Option (List Char)),
      create_safe_markdown_text p.title p.content =
        "**".toList ++ format_markdown_safe p.title ++ "**".toList ++
          ['\n', '\n'] ++ format_markdown_safe p.content ∧
      create_page_keyboard settings p pid =
        (p.buttons.map fun b => [kbButton b.text b.action]) ++
          (if pid ≠ settings.getD ("main".toList) then [backRow]
           else [])) ∧
    create_safe_markdown_text c8page.title c8page.content =
      "**T**\n\nC".toList ∧
    create_page_keyboard (some ("main".toList)) c8page ("p1".toList) =
      [[kbButton ("A".toList) ("back_to_main".toList)], backRow] ∧
    create_page_keyboard (some ("main".toList)) c8page ("main".toList) =
      [[kbButton ("A".toList) ("back_to_main".toList)]] := by
  refine ⟨fun p pid settings => ⟨rfl, ?_⟩, by decide, by decide, by decide⟩
  unfold create_page_keyboard
  rw [keyboard_foldl_rows]
  by_cases hm : pid ≠ settings.getD ("main".toList)
  · rw [if_pos hm, if_pos hm]
    simp
  · rw [if_neg hm, if_neg hm]
    simp

/-! ### C9: deleting a button touches only its owner -/

theorem find_in_page_none (bid : List Char) (bs : List Button)
    (h : ∀ b ∈ bs, b.id ≠ bid) :
    find_button_in_page bid bs = none := by
  induction bs with
  | nil => rfl
  | cons x xs ih =>
      have hx : x.id ≠ bid := h x (List.mem_cons_self x xs)
      rw [find_button_in_page, if_neg hx]
      exact ih fun b hb => h b (List.mem_cons_of_mem x hb)

theorem find_in_page_append (bid : List Char) (b1 : List Button)
    (btn : Button) (b2 : List Button) (hbtn : btn.id = bid)
    (hb1 : ∀ b ∈ b1, b.id ≠ bid) :
    find_button_in_page bid (b1 ++ btn :: b2) = some btn := by
  induction b1 with
  | nil =>
      rw [List.nil_append, find_button_in_page, if_pos hbtn]
  | cons x xs ih =>
      have hx : x.id ≠ bid := hb1 x (List.mem_cons_self x xs)
      rw [List.cons_append, find_button_in_page, if_neg hx]
      exact ih fun b hb => hb1 b (List.mem_cons_of_mem x hb)

theorem find_button_by_id_append (l1 l2 : List (List Char × Page))
    (pid : List Char) (p : Page) (bid : List Char) (btn : Button)
    (hl1 : ∀ kp ∈ l1, ∀ b ∈ kp.2.buttons, b.id ≠ bid)
    (hfind : find_button_in_page bid p.buttons = some btn) :
    find_button_by_id (l1 ++ (pid, p) :: l2) bid = some (pid, btn) := by
  induction l1 with
  | nil =>
      rw [List.nil_append, find_button_by_id, hfind]
  | cons kp rest ih =>
      obtain ⟨k1, p1⟩ := kp
      have hnone : find_button_in_page bid p1.buttons = none :=
        find_in_page_none bid p1.buttons
          (hl1 ⟨k1, p1⟩ (List.mem_cons_self _ rest))
      rw [List.cons_append, find_button_by_id, hnone]
      exact ih fun q hq => hl1 q (List.mem_cons_of_mem _ hq)

theorem pyRemove_append (b1 : List Button) (btn : Button)
    (b2 : List Button) (h : ∀ b ∈ b1, b ≠ btn) :
    pyRemove btn (b1 ++ btn :: b2) = b1 ++ b2 := by
  induction b1 with
  | nil => simp [pyRemove]
  | cons x xs ih =>
      have hx : x ≠ btn := h x (List.mem_cons_self x xs)
      rw [List.cons_append, pyRemove, if_neg hx, List.cons_append]
      rw [ih fun b hb => h b (List.mem_cons_of_mem x hb)]

theorem map_noop {α : Type} (f : α → α) (l : List α)
    (h : ∀ x ∈ l, f x = x) : l.map f = l := by
  induction l with
  | nil => rfl
  | cons x xs ih =>
      rw [List.map_cons, h x (List.mem_cons_self x xs),
        ih fun y hy => h y (List.mem_cons_of_mem x hy)]

/-- C9: deleting an existing button by id removes exactly that button
from its owning page's button list — the earlier buttons `b1` and later
buttons `b2` of that page survive in order — and every other page of the
graph is returned unchanged. -/
theorem c9_delete_button_frame (l1 l2 : List (List Char × Page))
    (pid : List Char) (p : Page) (b1 b2 : List Button) (btn : Button)
    (bid : List Char) (hbtn : btn.id = bid)
    (hbuttons : p.buttons = b1 ++ btn :: b2)
    (hb1 : ∀ b ∈ b1, b.id ≠ bid)
    (hl1 : ∀ kp ∈ l1, ∀ b ∈ kp.2.buttons, b.id ≠ bid)
    (hk1 : ∀ kp ∈ l1, kp.1 ≠ pid) (hk2 : ∀ kp ∈ l2, kp.1 ≠ pid) :
    delete_button (l1 ++ (pid, p) :: l2) bid =
      some (l1 ++ (pid, setButtons p (b1 ++ b2)) :: l2) := by
  have hfind : find_button_in_page bid p.buttons = some btn := by
    rw [hbuttons]
    exact find_in_page_append bid b1 btn b2 hbtn hb1
  have hremove : pyRemove btn p.buttons = b1 ++ b2 := by
    rw [hbuttons]
    refine pyRemove_append b1 btn b2 fun b hb he => ?_
    exact hb1 b hb (he ▸ hbtn)
  unfold delete_button
  rw [find_button_by_id_append l1 l2 pid p bid btn hl1 hfind]
  refine congrArg some ?_
  simp only [List.map_append, List.map_cons]
  rw [map_noop _ l1 fun kp hkp => if_neg (hk1 kp hkp),
    map_noop _ l2 fun kp hkp => if_neg (hk2 kp hkp)]
  simp [hremove]

/-- The two-page graph of the C9 scenario: page `home` owns `btn_1` and
`btn_2`, page `other` owns `btn_3`. -/
def c9pages : List (List Char × Page) :=
  [("home".toList,
    ⟨"H".toList, "hc".toList,
     [⟨"btn_1".toList, "A".toList, "page_other".toList, "t1".toList, none⟩,
      ⟨"btn_2".toList, "B".toList, "back_to_main".toList, "t2".toList,
       none⟩],
     "t0".toList, none⟩),
   ("other".toList,
    ⟨"O".toList, "oc".toList,
     [⟨"btn_3".toList, "C".toList, "back_to_main".toList, "t3".toList,
       none⟩],
     "t0".toList, none⟩)]

/-- The same graph after deleting `btn_2`: `home` keeps only `btn_1`,
`other` is untouched. -/
def c9pagesAfter : List (List Char × Page) :=
  [("home".toList,
    ⟨"H".toList, "hc".toList,
     [⟨"btn_1".toList, "A".toList, "page_other".toList, "t1".toList,
       none⟩],
     "t0".toList, none⟩),
   ("other".toList,
    ⟨"O".toList, "oc".toList,
     [⟨"btn_3".toList, "C".toList, "back_to_main".toList, "t3".toList,
       none⟩],
     "t0".toList, none⟩)]

/-- C9 witness: deleting `btn_2` from the two-page graph removes exactly
that button from `home` and leaves `other` untouched. -/
theorem c9_delete_button_witness :
    delete_button c9pages ("btn_2".toList) = some c9pagesAfter := by
  have h := c9_delete_button_frame []
    [("other".toList,
      ⟨"O".toList, "oc".toList,
       [⟨"btn_3".toList, "C".toList, "back_to_main".toList, "t3".toList,
         none⟩],
       "t0".toList, none⟩)]
    ("home".toList)
    (⟨"H".toList, "hc".toList,
      [⟨"btn_1".toList, "A".toList, "page_other".toList, "t1".toList,
        none⟩,
       ⟨"btn_2".toList, "B".toList, "back_to_main".toList, "t2".toList,
        none⟩],
      "t0".toList, none⟩)
    [⟨"btn_1".toList, "A".toList, "page_other".toList, "t1".toList, none⟩]
    []
    (⟨"btn_2".toList, "B".toList, "back_to_main".toList, "t2".toList,
      none⟩)
    ("btn_2".toList) (by decide) (by decide) (by decide) (by decide)
    (by decide) (by decide)
  exact h

/-! ### C10: registering a known user is a no-op -/

/-- C10: `register_user` is a no-op for already-known users: when
`str(user_id)` is already a key of the users store, the call returns the
store entirely unchanged — every existing record, including the user's
role, timestamps, counters and activity lists, is preserved.  A record
is only created for ids not yet present. -/
theorem c10_register_user_noop (users : List (List Char × UserRecord))
    (uid : Nat) (username first_name last_name : Option (List Char))
    (role now : List Char) (r : UserRecord)
    (h : alookup users (natStr uid) = some r) :
    register_user users uid username first_name last_name role now =
      users := by
  unfold register_user
  rw [h]
  simp

/-- An existing admin record for user 7. -/
def c10rec : UserRecord :=
  ⟨some ("boss".toList), none, none, "admin".toList, "t0".toList,
   "t0".toList, 5, ["main".toList], ["A".toList]⟩

/-- C10 witness: a repeated `/start`-style `register_user` call for the
already-registered admin user 7 leaves the store unchanged (the admin
role is not downgraded to the default `user` role passed in). -/
theorem c10_register_user_witness :
    register_user [(natStr 7, c10rec)] 7 (some ("boss".toList)) none none
      ("user".toList) ("t9".toList) = [(natStr 7, c10rec)] :=
  c10_register_user_noop [(natStr 7, c10rec)] 7 (some ("boss".toList))
    none none ("user".toList) ("t9".toList) c10rec (by decide)

end TelegramBot
